import Mathlib

/-!
Verification of the silkworm backend upload pipeline.

The definitions below are a shallow embedding of the repository code:
routes/upload.js (multer intake, classifier call, disease enrichment,
record save, failure cleanup and error mapping), the database-backed
version of middleware/authMiddleware.js, the Upload schema of
models/Upload.js (label enum, confidence bounds) and the toJSON method
of models/User.js.  External collaborators (jsonwebtoken, the identity
store, the classifier transport, the random draw) are passed in as
explicit parameters; file-system state is a list of stored file names.
-/

namespace Silkworm

/-- Disease profile: display name plus the ordered preventive measures,
translated from the diseaseInfoMap constant in routes/upload.js. -/
structure DiseaseInfo where
  name : String
  preventiveMeasures : List String
deriving DecidableEq, Repr

def grasserieInfo : DiseaseInfo :=
  { name := "Grasserie",
    preventiveMeasures :=
      ["Maintain hygiene in rearing house.",
       "Avoid overcrowding of silkworms.",
       "Disinfect rearing equipment regularly.",
       "Remove and destroy infected larvae immediately."] }

def flacherieInfo : DiseaseInfo :=
  { name := "Flacherie",
    preventiveMeasures :=
      ["Avoid feeding wet or contaminated mulberry leaves.",
       "Control temperature and humidity.",
       "Do not disturb worms during feeding.",
       "Destroy infected worms promptly."] }

def muscardineInfo : DiseaseInfo :=
  { name := "Muscardine",
    preventiveMeasures :=
      ["Dust larvae with slaked lime or fungal spore killers.",
       "Maintain dry and clean rearing environment.",
       "Dispose of dead larvae quickly."] }

def pebrineInfo : DiseaseInfo :=
  { name := "Pebrine",
    preventiveMeasures :=
      ["Use only disease-free silkworm eggs.",
       "Examine mother moths before egg laying.",
       "Destroy infected batches immediately."] }

/-- The four profiles in the key order of diseaseInfoMap
(grasserie, flacherie, muscardine, pebrine). -/
def diseaseProfiles : List DiseaseInfo :=
  [grasserieInfo, flacherieInfo, muscardineInfo, pebrineInfo]

/-- diseases[Math.floor(Math.random() * diseases.length)] : the random draw
is modelled by an explicit index into the key order. -/
def pickDisease (i : Fin 4) : DiseaseInfo :=
  diseaseProfiles.get ⟨i.val, i.isLt⟩

/-- Structured classifier verdict parsed from the FastAPI response body. -/
structure Prediction where
  label : String
  confidence : ℚ
  probabilities : Option (List (String × ℚ))
deriving DecidableEq, Repr

/-- A user document of models/User.js; field values are kept opaque as
strings, since only their flow matters here. -/
structure UserDoc where
  _id : String
  name : String
  role : String
  email : String
  phone : String
  passwordHash : String
  village : String
  language : String
  createdAt : String
  lastLogin : Option String
  __v : Nat
deriving DecidableEq, Repr

/-- An incoming multipart file as seen by multer. -/
structure IncomingFile where
  originalname : String
  mimetype : String
  size : Nat
deriving DecidableEq, Repr

/-- One Upload document, per the second (diseaseInfo-carrying) schema in
models/Upload.js. -/
structure UploadRecord where
  userId : String
  imageURL : String
  filename : String
  label : String
  confidence : ℚ
  probabilities : Option (List (String × ℚ))
  diseaseInfo : Option DiseaseInfo
  imageSize : Nat
  mimeType : String
deriving DecidableEq, Repr

/-- The label enum of the Upload schema: both cases are allowed. -/
def labelEnum : List String := ["healthy", "diseased", "Healthy", "Diseased"]

/-- Mongoose schema validation run by save(): the label must be in the
enum and confidence must satisfy min 0, max 1. -/
def uploadValid (r : UploadRecord) : Bool :=
  labelEnum.contains r.label && decide (0 ≤ r.confidence) && decide (r.confidence ≤ 1)

/-- Outcome of the auth middleware: an error response with a status and
message, or the full user document attached to the request. -/
inductive AuthResult where
  | err (status : Nat) (message : String)
  | ok (user : UserDoc)
deriving DecidableEq, Repr

/-- split(" ") on a character list: cut at every space, keeping empty
fragments, exactly as the JS String.split with a one-character separator. -/
def splitSpaceAux : List Char → List Char → List (List Char)
  | [], acc => [acc.reverse]
  | c :: cs, acc =>
    if c = ' ' then acc.reverse :: splitSpaceAux cs [] else splitSpaceAux cs (c :: acc)

def splitSpace (s : String) : List String :=
  (splitSpaceAux s.data []).map (fun l => String.mk l)

/-- authHeader.split(" ")[1], with the JS falsiness test on the result:
undefined (index out of range) and the empty string both count as missing. -/
def extractToken (header : String) : Option String :=
  match (splitSpace header)[1]? with
  | none => none
  | some t => if t = "" then none else some t

/-- The database-backed authMiddleware of middleware/authMiddleware.js:
missing header → 401, ill-formed header → 401, failed jwt.verify → 403,
subject absent from the store → 404, otherwise the full user document.
jwtVerify and findById stand for the jsonwebtoken and store collaborators. -/
def authMiddleware (authHeader : Option String)
    (jwtVerify : String → Option String)
    (findById : String → Option UserDoc) : AuthResult :=
  match authHeader with
  | none => AuthResult.err 401 "No token provided"
  | some h =>
    match extractToken h with
    | none => AuthResult.err 401 "Invalid token format"
    | some token =>
      match jwtVerify token with
      | none => AuthResult.err 403 "Token invalid or expired"
      | some uid =>
        match findById uid with
        | none => AuthResult.err 404 "User not found"
        | some u => AuthResult.ok u

/-- multer limit: fileSize 10 * 1024 * 1024. -/
def fileSizeLimit : Nat := 10 * 1024 * 1024

/-- Boolean prefix test on character lists, modelling the JS
String.startsWith check. -/
def charsPrefix : List Char → List Char → Bool
  | [], _ => true
  | _ :: _, [] => false
  | p :: ps, c :: cs => p == c && charsPrefix ps cs

/-- multer fileFilter: accept exactly the mimetypes starting with image/. -/
def fileFilterAccepts (f : IncomingFile) : Bool :=
  charsPrefix "image/".data f.mimetype.data

/-- Result of the single axios call to the classifier: a parsed body, a
connection-refused transport error, or any other failure (timeout,
other transport error, non-2xx response). -/
inductive ClassifyOutcome where
  | ok (pred : Prediction)
  | errConnRefused
  | errOther
deriving DecidableEq, Repr

/-- JS toLowerCase on the character list of a string. -/
def lowerString (s : String) : String := String.mk (s.data.map Char.toLower)

/-- Disease enrichment in the route handler: a random profile when the
lower-cased label is diseased, null otherwise. -/
def enrich (label : String) (randIdx : Fin 4) : Option DiseaseInfo :=
  if lowerString label = "diseased" then some (pickDisease randIdx) else none

/-- The Upload document constructed by the route handler before save(). -/
def mkUploadRecord (u : UserDoc) (f : IncomingFile) (storedName : String)
    (pred : Prediction) (dInfo : Option DiseaseInfo) : UploadRecord :=
  { userId := u._id,
    imageURL := "/uploads/" ++ storedName,
    filename := storedName,
    label := pred.label,
    confidence := pred.confidence,
    probabilities := pred.probabilities,
    diseaseInfo := dInfo,
    imageSize := f.size,
    mimeType := f.mimetype }

/-- Observable outcome of one POST /upload request: HTTP status, success
flag, message, the persisted record if any, the disease fields of the
response body, and the file names present on disk afterwards. -/
structure RouteResult where
  status : Nat
  success : Bool
  message : String
  persisted : Option UploadRecord
  respDisease : Option String
  respMeasures : List String
  files : List String
deriving DecidableEq, Repr

/-- An error response: nothing persisted, no disease fields. -/
def errResult (status : Nat) (message : String) (fs : List String) : RouteResult :=
  { status := status, success := false, message := message, persisted := none,
    respDisease := none, respMeasures := [], files := fs }

/-- The 200 success response assembled by the handler. -/
def okResult (r : UploadRecord) (dInfo : Option DiseaseInfo) (fs : List String) : RouteResult :=
  { status := 200, success := true, message := "Image uploaded & analyzed",
    persisted := some r,
    respDisease := Option.map DiseaseInfo.name dInfo,
    respMeasures := (Option.map DiseaseInfo.preventiveMeasures dInfo).getD [],
    files := fs }

/-- The full POST /upload pipeline of routes/upload.js: authMiddleware,
then multer (fileFilter, size limit, disk write of storedName), then the
handler (classifier call, enrichment, save, catch-block cleanup and
error mapping).  A multer rejection reaches the generic error handler of
server.js, which answers err.status or 500; neither multer error object
carries a status, so both map to 500.  fs0 is the set of stored files
before the request; storedName is the collision-resistant name multer
would assign. -/
def postUpload (authHeader : Option String)
    (jwtVerify : String → Option String)
    (findById : String → Option UserDoc)
    (fileField : Option IncomingFile)
    (storedName : String)
    (classify : ClassifyOutcome)
    (randIdx : Fin 4)
    (dbOk : Bool)
    (fs0 : List String) : RouteResult :=
  match authMiddleware authHeader jwtVerify findById with
  | AuthResult.err s m => errResult s m fs0
  | AuthResult.ok u =>
    match fileField with
    | none => errResult 400 "No image file provided" fs0
    | some f =>
      if fileFilterAccepts f then
        if f.size > fileSizeLimit then
          errResult 500 "File too large" fs0
        else
          match classify with
          | ClassifyOutcome.errConnRefused =>
            errResult 503 "AI service unavailable. Ensure FastAPI is running."
              ((storedName :: fs0).erase storedName)
          | ClassifyOutcome.errOther =>
            errResult 500 "Error processing upload" ((storedName :: fs0).erase storedName)
          | ClassifyOutcome.ok pred =>
            if uploadValid (mkUploadRecord u f storedName pred (enrich pred.label randIdx)) && dbOk then
              okResult (mkUploadRecord u f storedName pred (enrich pred.label randIdx))
                (enrich pred.label randIdx) (storedName :: fs0)
            else
              errResult 500 "Error processing upload" ((storedName :: fs0).erase storedName)
      else
        errResult 500 "Only image files allowed" fs0

/-- The routes registered by server.js: the root and health endpoints,
the mounted auth router and the mounted upload router.  The upload
router registers only POST / and GET /history. -/
def appRoutes : List (String × String) :=
  [("GET", "/"), ("GET", "/health"),
   ("POST", "/auth/signup"), ("POST", "/auth/login"), ("GET", "/auth/me"),
   ("POST", "/upload"), ("GET", "/upload/history")]

def routeExists (m p : String) : Bool := appRoutes.contains (m, p)

/-- The fallthrough 404 handler of server.js: answers 404 exactly when no
registered route matches. -/
def dispatchStatus404 (m p : String) : Option Nat :=
  if routeExists m p then none else some 404

/-- this.toObject(): all schema fields of a user document, including the
password hash and the version key. -/
def toObject (u : UserDoc) : List (String × String) :=
  [("_id", u._id), ("name", u.name), ("role", u.role), ("email", u.email),
   ("phone", u.phone), ("passwordHash", u.passwordHash), ("village", u.village),
   ("language", u.language), ("createdAt", u.createdAt),
   ("lastLogin", u.lastLogin.getD ""), ("__v", toString u.__v)]

/-- userSchema.methods.toJSON: toObject with passwordHash and __v deleted. -/
def userToJSON (u : UserDoc) : List (String × String) :=
  (toObject u).filter (fun kv => kv.1 != "passwordHash" && kv.1 != "__v")

/-- Status carried by an auth error response, none on success. -/
def authErrStatus : AuthResult → Option Nat
  | AuthResult.err s _ => some s
  | AuthResult.ok _ => none

/- Concrete instances used by witnesses and counterexamples. -/

def user0 : UserDoc :=
  { _id := "u1", name := "Ravi", role := "farmer", email := "ravi@example.com",
    phone := "9876543210", passwordHash := "bcrypt0", village := "Ramanagara",
    language := "english", createdAt := "2025-01-01", lastLogin := none, __v := 0 }

def jwtVerify0 : String → Option String := fun t => if t = "tok1" then some "u1" else none

def findById0 : String → Option UserDoc := fun i => if i = "u1" then some user0 else none

def file0 : IncomingFile :=
  { originalname := "worm.jpg", mimetype := "image/jpeg", size := 2048 }

def textFile0 : IncomingFile :=
  { originalname := "notes.txt", mimetype := "text/plain", size := 10 }

def bigFile0 : IncomingFile :=
  { originalname := "huge.png", mimetype := "image/png", size := 10 * 1024 * 1024 + 1 }

def predHealthy : Prediction :=
  { label := "healthy", confidence := mkRat 92 100, probabilities := none }

def predDiseasedCap : Prediction :=
  { label := "Diseased", confidence := mkRat 81 100,
    probabilities := some [("Healthy", mkRat 19 100), ("Diseased", mkRat 81 100)] }

/-- Helper: whenever a POST /upload flow persists a record, the flow
passed authentication, carried an accepted file, received a parsed
prediction, and the saved record passed schema validation; the result is
the success response and the stored file remains on disk. -/
theorem postUpload_persisted_characterization
    (authHeader : Option String) (jwtVerify : String → Option String)
    (findById : String → Option UserDoc) (fileField : Option IncomingFile)
    (storedName : String) (classify : ClassifyOutcome) (randIdx : Fin 4)
    (dbOk : Bool) (fs0 : List String) (r : UploadRecord)
    (hres : (postUpload authHeader jwtVerify findById fileField storedName classify
        randIdx dbOk fs0).persisted = some r) :
    ∃ u f pred,
      authMiddleware authHeader jwtVerify findById = AuthResult.ok u
      ∧ fileField = some f ∧ classify = ClassifyOutcome.ok pred
      ∧ uploadValid r = true ∧ dbOk = true
      ∧ r = mkUploadRecord u f storedName pred (enrich pred.label randIdx)
      ∧ postUpload authHeader jwtVerify findById fileField storedName classify randIdx dbOk fs0
          = okResult r (enrich pred.label randIdx) (storedName :: fs0) := by
  unfold postUpload at hres ⊢
  cases hauth : authMiddleware authHeader jwtVerify findById with
  | err s m => simp [hauth, errResult] at hres
  | ok u =>
    cases fileField with
    | none => simp [hauth, errResult] at hres
    | some f =>
      by_cases hmime : fileFilterAccepts f = true
      · by_cases hsize : f.size > fileSizeLimit
        · simp [hauth, hmime, hsize, errResult] at hres
        · cases hcl : classify with
          | errConnRefused => simp [hauth, hcl, hmime, hsize, errResult] at hres
          | errOther => simp [hauth, hcl, hmime, hsize, errResult] at hres
          | ok pred =>
            by_cases hsave :
                (uploadValid (mkUploadRecord u f storedName pred (enrich pred.label randIdx))
                  && dbOk) = true
            · rw [Bool.and_eq_true] at hsave
              obtain ⟨hval, hdb⟩ := hsave
              simp [hauth, hcl, hmime, hsize, hval, hdb, okResult] at hres
              subst hres
              refine ⟨u, f, pred, rfl, rfl, rfl, hval, hdb, rfl, ?_⟩
              simp [hmime, hsize, hval, hdb, okResult]
            · simp [hauth, hcl, hmime, hsize, hsave, errResult] at hres
      · simp [hauth, hmime, errResult] at hres

/-- C1: whenever an upload submission stores the file and a later step
fails, the stored file is removed before the error response; at the end
of every flow the stored file exists iff the flow persisted a record. -/
theorem storedFile_iff_persisted
    (authHeader : Option String) (jwtVerify : String → Option String)
    (findById : String → Option UserDoc) (fileField : Option IncomingFile)
    (storedName : String) (classify : ClassifyOutcome) (randIdx : Fin 4)
    (dbOk : Bool) (fs0 : List String)
    (hfresh : storedName ∉ fs0) :
    storedName ∈ (postUpload authHeader jwtVerify findById fileField storedName classify
        randIdx dbOk fs0).files
      ↔ (postUpload authHeader jwtVerify findById fileField storedName classify
        randIdx dbOk fs0).persisted.isSome = true := by
  unfold postUpload
  cases hauth : authMiddleware authHeader jwtVerify findById with
  | err s m => simp [hauth, errResult, hfresh]
  | ok u =>
    cases fileField with
    | none => simp [hauth, errResult, hfresh]
    | some f =>
      by_cases hmime : fileFilterAccepts f = true
      · by_cases hsize : f.size > fileSizeLimit
        · simp [hauth, hmime, hsize, errResult, hfresh]
        · cases classify with
          | errConnRefused => simp [hauth, hmime, hsize, errResult, hfresh]
          | errOther => simp [hauth, hmime, hsize, errResult, hfresh]
          | ok pred =>
            by_cases hsave :
                (uploadValid (mkUploadRecord u f storedName pred (enrich pred.label randIdx))
                  && dbOk) = true
            · simp [hauth, hmime, hsize, hsave, okResult]
            · simp [hauth, hmime, hsize, hsave, errResult, hfresh]
      · simp [hauth, hmime, errResult, hfresh]

theorem storedFile_iff_persisted_witness :
    ("sw1" ∉ ([] : List String))
  ∧ ("sw1" ∈ (postUpload (some "Bearer tok1") jwtVerify0 findById0 (some file0) "sw1"
        (ClassifyOutcome.ok predHealthy) 0 true []).files
      ↔ (postUpload (some "Bearer tok1") jwtVerify0 findById0 (some file0) "sw1"
        (ClassifyOutcome.ok predHealthy) 0 true []).persisted.isSome = true) :=
  ⟨by simp, storedFile_iff_persisted (some "Bearer tok1") jwtVerify0 findById0 (some file0)
      "sw1" (ClassifyOutcome.ok predHealthy) 0 true [] (by simp)⟩

/-- C9: a POST /upload request without a bearer credential is answered
401 with the no-token message before multer runs: the file store is
unchanged and nothing is persisted. -/
theorem no_auth_no_write
    (jwtVerify : String → Option String) (findById : String → Option UserDoc)
    (fileField : Option IncomingFile) (storedName : String)
    (classify : ClassifyOutcome) (randIdx : Fin 4) (dbOk : Bool) (fs0 : List String) :
    (postUpload none jwtVerify findById fileField storedName classify randIdx dbOk fs0).status = 401
  ∧ (postUpload none jwtVerify findById fileField storedName classify randIdx dbOk fs0).message
      = "No token provided"
  ∧ (postUpload none jwtVerify findById fileField storedName classify randIdx dbOk fs0).files = fs0
  ∧ (postUpload none jwtVerify findById fileField storedName classify randIdx dbOk fs0).persisted
      = none :=
  ⟨rfl, rfl, rfl, rfl⟩

/-- C2: for every accepted upload the persisted diseaseInfo is non-null
iff the lower-cased prediction label equals diseased; a non-diseased
label yields disease null and an empty preventive-measures list in the
response, and a diseased label yields the name and measures of the
selected profile. -/
theorem diseaseInfo_iff_diseased
    (authHeader : Option String) (jwtVerify : String → Option String)
    (findById : String → Option UserDoc) (fileField : Option IncomingFile)
    (storedName : String) (pred : Prediction) (randIdx : Fin 4)
    (dbOk : Bool) (fs0 : List String) (r : UploadRecord)
    (hres : (postUpload authHeader jwtVerify findById fileField storedName
        (ClassifyOutcome.ok pred) randIdx dbOk fs0).persisted = some r) :
    (r.diseaseInfo.isSome = true ↔ lowerString pred.label = "diseased")
  ∧ (lowerString pred.label ≠ "diseased" →
      (postUpload authHeader jwtVerify findById fileField storedName
        (ClassifyOutcome.ok pred) randIdx dbOk fs0).respDisease = none
      ∧ (postUpload authHeader jwtVerify findById fileField storedName
        (ClassifyOutcome.ok pred) randIdx dbOk fs0).respMeasures = [])
  ∧ (lowerString pred.label = "diseased" →
      ∃ d, r.diseaseInfo = some d ∧ d ∈ diseaseProfiles
        ∧ (postUpload authHeader jwtVerify findById fileField storedName
            (ClassifyOutcome.ok pred) randIdx dbOk fs0).respDisease = some d.name
        ∧ (postUpload authHeader jwtVerify findById fileField storedName
            (ClassifyOutcome.ok pred) randIdx dbOk fs0).respMeasures = d.preventiveMeasures) := by
  obtain ⟨u, f, pred2, hauth, hff, hcl, hval, hdb, hrec, heq⟩ :=
    postUpload_persisted_characterization authHeader jwtVerify findById fileField storedName
      (ClassifyOutcome.ok pred) randIdx dbOk fs0 r hres
  injection hcl with hpred
  subst hpred
  subst hrec
  refine ⟨?_, ?_, ?_⟩
  · by_cases hd : lowerString pred.label = "diseased" <;> simp [mkUploadRecord, enrich, hd]
  · intro hd
    rw [heq]
    simp [okResult, enrich, hd]
  · intro hd
    refine ⟨pickDisease randIdx, ?_, ?_, ?_, ?_⟩
    · simp [mkUploadRecord, enrich, hd]
    · exact List.get_mem _ _ _
    · rw [heq]; simp [okResult, enrich, hd]
    · rw [heq]; simp [okResult, enrich, hd]

theorem diseaseInfo_iff_diseased_witness :
    ((mkUploadRecord user0 file0 "sw4" predDiseasedCap (some grasserieInfo)).diseaseInfo.isSome = true
      ↔ lowerString predDiseasedCap.label = "diseased")
  ∧ ∃ d, (mkUploadRecord user0 file0 "sw4" predDiseasedCap (some grasserieInfo)).diseaseInfo = some d
      ∧ d ∈ diseaseProfiles
      ∧ (postUpload (some "Bearer tok1") jwtVerify0 findById0 (some file0) "sw4"
          (ClassifyOutcome.ok predDiseasedCap) 0 true []).respDisease = some d.name
      ∧ (postUpload (some "Bearer tok1") jwtVerify0 findById0 (some file0) "sw4"
          (ClassifyOutcome.ok predDiseasedCap) 0 true []).respMeasures = d.preventiveMeasures := by
  have h := diseaseInfo_iff_diseased (some "Bearer tok1") jwtVerify0 findById0 (some file0)
    "sw4" predDiseasedCap 0 true [] (mkUploadRecord user0 file0 "sw4" predDiseasedCap
      (some grasserieInfo)) rfl
  exact ⟨h.1, h.2.2 rfl⟩

/-- C3: when the classifier call fails, the submission is answered 503
exactly for a refused connection and 500 for every other transport,
timeout or non-2xx failure. -/
theorem classifier_failure_statuses
    (hdr tok uid : String) (jwtVerify : String → Option String)
    (findById : String → Option UserDoc) (u : UserDoc) (f : IncomingFile)
    (storedName : String) (randIdx : Fin 4) (dbOk : Bool) (fs0 : List String)
    (htok : extractToken hdr = some tok)
    (hver : jwtVerify tok = some uid)
    (hfind : findById uid = some u)
    (hmime : fileFilterAccepts f = true)
    (hsize : ¬ f.size > fileSizeLimit) :
    ((postUpload (some hdr) jwtVerify findById (some f) storedName
        ClassifyOutcome.errConnRefused randIdx dbOk fs0).status = 503
      ∧ (postUpload (some hdr) jwtVerify findById (some f) storedName
        ClassifyOutcome.errConnRefused randIdx dbOk fs0).success = false)
  ∧ ((postUpload (some hdr) jwtVerify findById (some f) storedName
        ClassifyOutcome.errOther randIdx dbOk fs0).status = 500
      ∧ (postUpload (some hdr) jwtVerify findById (some f) storedName
        ClassifyOutcome.errOther randIdx dbOk fs0).success = false) := by
  have hauth : authMiddleware (some hdr) jwtVerify findById = AuthResult.ok u := by
    simp [authMiddleware, htok, hver, hfind]
  refine ⟨⟨?_, ?_⟩, ?_, ?_⟩ <;> simp [postUpload, hauth, hmime, hsize, errResult]

theorem classifier_failure_statuses_witness :
    (postUpload (some "Bearer tok1") jwtVerify0 findById0 (some file0) "sw5"
        ClassifyOutcome.errConnRefused 0 true []).status = 503
  ∧ (postUpload (some "Bearer tok1") jwtVerify0 findById0 (some file0) "sw5"
        ClassifyOutcome.errOther 0 true []).status = 500 := by
  have h := classifier_failure_statuses "Bearer tok1" "tok1" "u1" jwtVerify0 findById0 user0
    file0 "sw5" 0 true [] rfl rfl rfl rfl (by decide)
  exact ⟨h.1.1, h.2.1⟩

/-- C7: every persisted record has confidence inside the unit interval,
and a prediction whose confidence is outside it fails schema validation,
so no record is persisted for it. -/
theorem confidence_in_unit_interval
    (authHeader : Option String) (jwtVerify : String → Option String)
    (findById : String → Option UserDoc) (fileField : Option IncomingFile)
    (storedName : String) (classify : ClassifyOutcome) (randIdx : Fin 4)
    (dbOk : Bool) (fs0 : List String) :
    (∀ r, (postUpload authHeader jwtVerify findById fileField storedName classify
        randIdx dbOk fs0).persisted = some r → 0 ≤ r.confidence ∧ r.confidence ≤ 1)
  ∧ (∀ pred, classify = ClassifyOutcome.ok pred →
      (pred.confidence < 0 ∨ 1 < pred.confidence) →
      (postUpload authHeader jwtVerify findById fileField storedName classify
        randIdx dbOk fs0).persisted = none) := by
  constructor
  · intro r hres
    obtain ⟨u, f, pred, hauth, hff, hcl, hval, hdb, hrec, heq⟩ :=
      postUpload_persisted_characterization _ _ _ _ _ _ _ _ _ _ hres
    simp only [uploadValid, Bool.and_eq_true, decide_eq_true_eq] at hval
    exact ⟨hval.1.2, hval.2⟩
  · intro pred hcl hout
    cases hp : (postUpload authHeader jwtVerify findById fileField storedName classify
        randIdx dbOk fs0).persisted with
    | none => rfl
    | some r =>
      exfalso
      obtain ⟨u, f, pred2, hauth, hff, hcl2, hval, hdb, hrec, heq⟩ :=
        postUpload_persisted_characterization _ _ _ _ _ _ _ _ _ _ hp
      rw [hcl] at hcl2
      injection hcl2 with hpred
      subst hpred
      simp only [uploadValid, Bool.and_eq_true, decide_eq_true_eq] at hval
      have hconf : r.confidence = pred.confidence := by
        rw [hrec]; simp [mkUploadRecord]
      rcases hout with hlt | hgt
      · have h0 := hval.1.2
        rw [hconf] at h0
        linarith
      · have h1 := hval.2
        rw [hconf] at h1
        linarith

theorem confidence_in_unit_interval_witness :
    0 ≤ (mkUploadRecord user0 file0 "sw6" predHealthy none).confidence
  ∧ (mkUploadRecord user0 file0 "sw6" predHealthy none).confidence ≤ 1 :=
  (confidence_in_unit_interval (some "Bearer tok1") jwtVerify0 findById0 (some file0) "sw6"
      (ClassifyOutcome.ok predHealthy) 0 true []).1
    (mkUploadRecord user0 file0 "sw6" predHealthy none) rfl

/-- C4 counterexample: an authenticated submission whose file is not an
image is rejected with status 500 by the generic error handler, not with
status 400 as claimed. -/
theorem nonImage_status_counterexample :
    (postUpload (some "Bearer tok1") jwtVerify0 findById0 (some textFile0) "sw7"
        ClassifyOutcome.errOther 0 true []).status = 500
  ∧ (postUpload (some "Bearer tok1") jwtVerify0 findById0 (some textFile0) "sw7"
        ClassifyOutcome.errOther 0 true []).status ≠ 400 :=
  ⟨rfl, by decide⟩

/-- C4 (amended): a submission with no file is rejected with status 400;
a non-image or oversized file is rejected by multer and, lacking a
status on the error object, surfaces as status 500 from the generic
error handler; in all three cases nothing is persisted and no file is
left on durable storage. -/
theorem validation_rejections
    (hdr tok uid : String) (jwtVerify : String → Option String)
    (findById : String → Option UserDoc) (u : UserDoc) (storedName : String)
    (classify : ClassifyOutcome) (randIdx : Fin 4) (dbOk : Bool) (fs0 : List String)
    (htok : extractToken hdr = some tok)
    (hver : jwtVerify tok = some uid)
    (hfind : findById uid = some u) :
    ((postUpload (some hdr) jwtVerify findById none storedName classify
        randIdx dbOk fs0).status = 400
      ∧ (postUpload (some hdr) jwtVerify findById none storedName classify
        randIdx dbOk fs0).persisted = none
      ∧ (postUpload (some hdr) jwtVerify findById none storedName classify
        randIdx dbOk fs0).files = fs0)
  ∧ (∀ f : IncomingFile, fileFilterAccepts f = false →
      (postUpload (some hdr) jwtVerify findById (some f) storedName classify
        randIdx dbOk fs0).status = 500
      ∧ (postUpload (some hdr) jwtVerify findById (some f) storedName classify
        randIdx dbOk fs0).persisted = none
      ∧ (postUpload (some hdr) jwtVerify findById (some f) storedName classify
        randIdx dbOk fs0).files = fs0)
  ∧ (∀ f : IncomingFile, fileFilterAccepts f = true → f.size > fileSizeLimit →
      (postUpload (some hdr) jwtVerify findById (some f) storedName classify
        randIdx dbOk fs0).status = 500
      ∧ (postUpload (some hdr) jwtVerify findById (some f) storedName classify
        randIdx dbOk fs0).persisted = none
      ∧ (postUpload (some hdr) jwtVerify findById (some f) storedName classify
        randIdx dbOk fs0).files = fs0) := by
  have hauth : authMiddleware (some hdr) jwtVerify findById = AuthResult.ok u := by
    simp [authMiddleware, htok, hver, hfind]
  refine ⟨⟨?_, ?_, ?_⟩, fun f hf => ?_, fun f hf hs => ?_⟩
  · simp [postUpload, hauth, errResult]
  · simp [postUpload, hauth, errResult]
  · simp [postUpload, hauth, errResult]
  · refine ⟨?_, ?_, ?_⟩ <;> simp [postUpload, hauth, hf, errResult]
  · refine ⟨?_, ?_, ?_⟩ <;> simp [postUpload, hauth, hf, hs, errResult]

theorem validation_rejections_witness :
    (postUpload (some "Bearer tok1") jwtVerify0 findById0 none "sw8"
        ClassifyOutcome.errOther 0 true []).status = 400
  ∧ (postUpload (some "Bearer tok1") jwtVerify0 findById0 (some textFile0) "sw8"
        ClassifyOutcome.errOther 0 true []).status = 500
  ∧ (postUpload (some "Bearer tok1") jwtVerify0 findById0 (some bigFile0) "sw8"
        ClassifyOutcome.errOther 0 true []).status = 500 := by
  have h := validation_rejections "Bearer tok1" "tok1" "u1" jwtVerify0 findById0 user0 "sw8"
    ClassifyOutcome.errOther 0 true [] rfl rfl rfl
  exact ⟨h.1.1, (h.2.1 textFile0 rfl).1, (h.2.2 bigFile0 rfl (by decide)).1⟩

/-- C5 counterexample: a well-formed bearer header whose token fails
verification is answered with status 403, not 401 as claimed. -/
theorem invalid_token_not_401 :
    authErrStatus (authMiddleware (some "Bearer bad") (fun _ => none) findById0) = some 403
  ∧ authErrStatus (authMiddleware (some "Bearer bad") (fun _ => none) findById0) ≠ some 401 :=
  ⟨rfl, by decide⟩

/-- C5 (amended): the middleware answers 401 when no header is present
or the header lacks the two-part scheme-token structure, 403 when the
token fails signature or expiry verification, 404 when the subject no
longer exists in the identity store, and on success attaches the full
identity record. -/
theorem authMiddleware_statuses
    (jwtVerify : String → Option String) (findById : String → Option UserDoc) :
    authMiddleware none jwtVerify findById = AuthResult.err 401 "No token provided"
  ∧ (∀ h, extractToken h = none →
      authMiddleware (some h) jwtVerify findById = AuthResult.err 401 "Invalid token format")
  ∧ (∀ h t, extractToken h = some t → jwtVerify t = none →
      authMiddleware (some h) jwtVerify findById = AuthResult.err 403 "Token invalid or expired")
  ∧ (∀ h t uid, extractToken h = some t → jwtVerify t = some uid → findById uid = none →
      authMiddleware (some h) jwtVerify findById = AuthResult.err 404 "User not found")
  ∧ (∀ h t uid u, extractToken h = some t → jwtVerify t = some uid → findById uid = some u →
      authMiddleware (some h) jwtVerify findById = AuthResult.ok u) := by
  refine ⟨rfl, ?_, ?_, ?_, ?_⟩
  · intro h hh
    simp [authMiddleware, hh]
  · intro h t hh ht
    simp [authMiddleware, hh, ht]
  · intro h t uid hh ht hu
    simp [authMiddleware, hh, ht, hu]
  · intro h t uid u hh ht hu
    simp [authMiddleware, hh, ht, hu]

theorem authMiddleware_statuses_witness :
    authMiddleware (some "Bearer tok1") jwtVerify0 findById0 = AuthResult.ok user0 :=
  (authMiddleware_statuses jwtVerify0 findById0).2.2.2.2 "Bearer tok1" "tok1" "u1" user0
    rfl rfl rfl

/-- C6 (code bug): the upload router registers only POST /upload and GET
/upload/history, no stats route, so an authenticated GET /upload/stats
falls through to the 404 handler of server.js instead of returning the
per-label counts and average confidences that the getUserStats static of
the Upload model would compute. -/
theorem statsRouteNotRegistered :
    routeExists "GET" "/upload/stats" = false
  ∧ dispatchStatus404 "GET" "/upload/stats" = some 404
  ∧ routeExists "GET" "/upload/history" = true :=
  ⟨rfl, rfl, rfl⟩

/-- C8 counterexample: a classifier label Diseased is persisted verbatim
as Diseased, which is not one of the two normalized values, so labels
are not normalized at rest. -/
theorem label_not_normalized_counterexample :
    (postUpload (some "Bearer tok1") jwtVerify0 findById0 (some file0) "sw9"
        (ClassifyOutcome.ok predDiseasedCap) 0 true []).persisted
      = some (mkUploadRecord user0 file0 "sw9" predDiseasedCap (some grasserieInfo))
  ∧ (mkUploadRecord user0 file0 "sw9" predDiseasedCap (some grasserieInfo)).label = "Diseased"
  ∧ "Diseased" ∉ (["healthy", "diseased"] : List String) :=
  ⟨rfl, rfl, by decide⟩

/-- C8 (amended): every persisted record stores the classifier label
verbatim, unnormalized, and the schema enum admits exactly the four
spellings healthy, diseased, Healthy, Diseased; any other label fails
validation before persistence. -/
theorem label_enum_and_raw
    (authHeader : Option String) (jwtVerify : String → Option String)
    (findById : String → Option UserDoc) (fileField : Option IncomingFile)
    (storedName : String) (pred : Prediction) (randIdx : Fin 4)
    (dbOk : Bool) (fs0 : List String) (r : UploadRecord)
    (hres : (postUpload authHeader jwtVerify findById fileField storedName
        (ClassifyOutcome.ok pred) randIdx dbOk fs0).persisted = some r) :
    r.label = pred.label ∧ labelEnum.contains r.label = true := by
  obtain ⟨u, f, pred2, hauth, hff, hcl, hval, hdb, hrec, heq⟩ :=
    postUpload_persisted_characterization authHeader jwtVerify findById fileField storedName
      (ClassifyOutcome.ok pred) randIdx dbOk fs0 r hres
  injection hcl with hpred
  subst hpred
  constructor
  · simp [hrec, mkUploadRecord]
  · simp only [uploadValid, Bool.and_eq_true] at hval
    exact hval.1.1

theorem label_enum_and_raw_witness :
    (mkUploadRecord user0 file0 "sw10" predDiseasedCap (some grasserieInfo)).label
        = predDiseasedCap.label
  ∧ labelEnum.contains
      (mkUploadRecord user0 file0 "sw10" predDiseasedCap (some grasserieInfo)).label = true :=
  label_enum_and_raw (some "Bearer tok1") jwtVerify0 findById0 (some file0) "sw10"
    predDiseasedCap 0 true []
    (mkUploadRecord user0 file0 "sw10" predDiseasedCap (some grasserieInfo)) rfl

/-- C10: two user documents that differ only in passwordHash serialize
to the same JSON, and that JSON never contains a passwordHash field. -/
theorem toJSON_hides_passwordHash (u : UserDoc) (h1 h2 : String) :
    userToJSON { u with passwordHash := h1 } = userToJSON { u with passwordHash := h2 }
  ∧ ∀ kv ∈ userToJSON { u with passwordHash := h1 }, kv.1 ≠ "passwordHash" := by
  constructor
  · rfl
  · intro kv hkv
    have hkv2 : kv ∈ [("_id", u._id), ("name", u.name), ("role", u.role), ("email", u.email),
        ("phone", u.phone), ("village", u.village), ("language", u.language),
        ("createdAt", u.createdAt), ("lastLogin", u.lastLogin.getD "")] := hkv
    fin_cases hkv2 <;> simp

theorem toJSON_hides_passwordHash_witness :
    userToJSON { user0 with passwordHash := "a1" } = userToJSON { user0 with passwordHash := "b2" }
  ∧ ("_id", "u1").1 ≠ "passwordHash" :=
  ⟨(toJSON_hides_passwordHash user0 "a1" "b2").1,
    (toJSON_hides_passwordHash user0 "a1" "b2").2 ("_id", "u1") (by decide)⟩

end Silkworm
